import Mathlib

/-!
Verification of the rpm-repo-proxy metadata pipeline.

This file gives a shallow embedding of the pure core of the repository:

* `src/rpm-metadata.ts` — the dependency-record mapping of `extractRpmMetadata`
  (the surrounding network fetches are not modelled; the mapping from the
  parsed header arrays `RequireName` / `RequireVersion` / `RequireFlags` to
  dependency records is embedded verbatim);
* `src/repo-metadata.ts` — the four XML document generators and
  `generateRepoMetadata`;
* `src/version-discovery.ts` — `VersionManager.getIndex` / `checkAndUpdate` /
  `getLatest` / `getAllVersions`, with the single KV entry under the index key
  modelled as explicit state of type `Option VersionIndex` and the wall clock
  (`new Date().toISOString()`) passed in as an explicit `now` argument;
* `src/metadata-manager.ts` — `MetadataManager.getMetadata` / `getAllMetadata`,
  with the KV namespace modelled as a function from keys to optional records.

JavaScript strings are modelled as Lean `String`s (sequences of Unicode scalar
values).  The JavaScript `string.length` (count of UTF-16 code units) is
modelled by `jsLength`, and `TextEncoder().encode` by `utf8Encode`.  Gzip
compression (`CompressionStream`) and SHA-256 (`crypto.subtle.digest`) are
deterministic byte-level primitives of the Workers runtime; they are passed
into `generateRepoMetadata` as explicit function parameters `gzip` and
`sha256hex`, which is exactly how the source treats them: opaque pure
functions of the input bytes.
-/

namespace RpmRepoProxy

/-! ## JavaScript string model -/

/-- Number of UTF-16 code units a character occupies in a JavaScript string:
characters outside the basic multilingual plane take a surrogate pair. -/
def jsCharWidth (c : Char) : Nat :=
  if c.toNat < 0x10000 then 1 else 2

/-- UTF-16 code-unit count of a character list. -/
def jsLengthChars : List Char → Nat
  | [] => 0
  | c :: cs => jsCharWidth c + jsLengthChars cs

/-- The JavaScript `string.length`: the number of UTF-16 code units. -/
def jsLength (s : String) : Nat := jsLengthChars s.data

/-- UTF-8 encoding of a single character, as produced by `TextEncoder`. -/
def utf8EncodeChar (c : Char) : List Nat :=
  let n := c.toNat
  if n < 0x80 then [n]
  else if n < 0x800 then [0xC0 + n / 0x40, 0x80 + n % 0x40]
  else if n < 0x10000 then
    [0xE0 + n / 0x1000, 0x80 + (n / 0x40) % 0x40, 0x80 + n % 0x40]
  else
    [0xF0 + n / 0x40000, 0x80 + (n / 0x1000) % 0x40,
     0x80 + (n / 0x40) % 0x40, 0x80 + n % 0x40]

/-- UTF-8 encoding of a character list. -/
def utf8EncodeChars : List Char → List Nat
  | [] => []
  | c :: cs => utf8EncodeChar c ++ utf8EncodeChars cs

/-- The byte sequence `new TextEncoder().encode(s)` for a JavaScript string. -/
def utf8Encode (s : String) : List Nat := utf8EncodeChars s.data

/-- Substring containment between JavaScript strings. -/
abbrev Substr (pat s : String) : Prop := pat.data <:+: s.data

/-! ## Data model (`rpm-metadata.ts` / `repo-metadata.ts` interfaces) -/

/-- One dependency record of the extracted metadata: `{name, version?, flags?}`.
Optional properties of the TypeScript interface are modelled with `Option`. -/
structure Dependency where
  name : String
  version : Option String
  flags : Option String
deriving DecidableEq, Repr

/-- The `size: {package, installed}` object of a package record. -/
structure SizeInfo where
  package : Nat
  installed : Nat
deriving DecidableEq, Repr

/-- The `checksum: {type, value}` object of a package record. -/
structure ChecksumInfo where
  type : String
  value : String
deriving DecidableEq, Repr

/-- The `PackageMetadata` interface of `repo-metadata.ts` (the fields the
generator reads).  `buildTime` is the JavaScript `Date` value in milliseconds
since the epoch, so `new Date(pkg.buildTime).getTime()` is the identity. -/
structure PackageMetadata where
  name : String
  version : String
  release : String
  arch : String
  summary : String
  description : String
  packager : String
  buildTime : Int
  size : SizeInfo
  checksum : ChecksumInfo
  filename : String
  license : String
  vendor : String
  dependencies : List Dependency
deriving DecidableEq, Repr

/-- The `MetadataFileInfo` interface: checksums and sizes handed to
`generateRepomdXml`. -/
structure MetadataFileInfo where
  checksum : String
  checksumGz : String
  size : Nat
  sizeGz : Nat
deriving DecidableEq, Repr

/-- One of the `primary` / `filelists` / `other` entries of the returned
`RepoMetadata` object.  `gz` is the `Uint8Array` of compressed bytes. -/
structure RepoSection where
  xml : String
  gz : List Nat
  checksum : String
  openChecksum : String
  size : Nat
  openSize : Nat
deriving DecidableEq, Repr

/-- The `repomd: {xml}` entry of the returned bundle. -/
structure RepomdEntry where
  xml : String
deriving DecidableEq, Repr

/-- The complete `RepoMetadata` bundle returned by `generateRepoMetadata`. -/
structure RepoMetadata where
  repomd : RepomdEntry
  primary : RepoSection
  filelists : RepoSection
  other : RepoSection
deriving DecidableEq, Repr

/-! ## `rpm-metadata.ts`: dependency extraction -/

/-- The `flagMap` of `extractRpmMetadata`: comparison bits to flag names.
A lookup miss (`flagMap[bits]` undefined) is `none`. -/
def flagMap (n : Nat) : Option String :=
  if n = 2 then some "LT"
  else if n = 4 then some "GT"
  else if n = 8 then some "EQ"
  else if n = 10 then some "LE"
  else if n = 12 then some "GE"
  else none

/-- Body of the arrow function inside `requireNames.map((name, i) => ...)`.
An out-of-range JavaScript index read yields `undefined`, which is falsy, as
are the empty string and the number `0`; `List.getD` with the corresponding
falsy default gives the same truthiness outcome for the two `if`s. -/
def extractDependency (requireVersions : List String) (requireFlags : List Nat)
    (i : Nat) (name : String) : Dependency :=
  let version := requireVersions.getD i ""
  let flagNum := requireFlags.getD i 0
  { name := name
    version := if version.length > 0 then some version else none
    flags := if flagNum ≠ 0 then flagMap (flagNum &&& 0x0F) else none }

/-- Index-tracking recursion implementing `requireNames.map((name, i) => ...)`. -/
def extractDependenciesAux (requireVersions : List String)
    (requireFlags : List Nat) (i : Nat) : List String → List Dependency
  | [] => []
  | name :: rest =>
    extractDependency requireVersions requireFlags i name ::
      extractDependenciesAux requireVersions requireFlags (i + 1) rest

/-- The `dependencies` list built by `extractRpmMetadata` from the parsed
header arrays `RequireName`, `RequireVersion` and `RequireFlags`. -/
def extractDependencies (requireNames requireVersions : List String)
    (requireFlags : List Nat) : List Dependency :=
  extractDependenciesAux requireVersions requireFlags 0 requireNames

/-! ## `repo-metadata.ts`: XML generation -/

/-- The per-character action of `escapeXml`.  The source applies five global
single-character `replace` passes in the order `&`, `<`, `>`, `"`, `\x27`; since
no replacement text contains a character that a later pass replaces, the
sequential passes coincide with this single character-wise map. -/
def escapeXmlChar (c : Char) : String :=
  if c = '&' then "&amp;"
  else if c = '<' then "&lt;"
  else if c = '>' then "&gt;"
  else if c = '"' then "&quot;"
  else if c = '\x27' then "&apos;"
  else String.singleton c

/-- The `escapeXml` helper of `repo-metadata.ts` (for string input; the falsy
guard returns the empty string unchanged, which the map also does). -/
def escapeXml (s : String) : String :=
  String.join (s.data.map escapeXmlChar)

/-- The conversion `Math.floor(new Date(ms).getTime() / 1000)` from a
millisecond epoch timestamp to whole epoch seconds (`Math.floor` rounds toward
negative infinity, which is `Int.fdiv`). -/
def epochSeconds (ms : Int) : Int := Int.fdiv ms 1000

/-- One `<rpm:entry .../>` line of the `<rpm:requires>` block.  The source
guards each attribute with JavaScript truthiness (`dep.flags ? ... : ''`),
which for an optional string property means present and non-empty. -/
def dependencyEntry (dep : Dependency) : String :=
  let depName := escapeXml dep.name
  let flags := match dep.flags with
    | some f => if f.isEmpty then "" else " flags=\"" ++ escapeXml f ++ "\""
    | none => ""
  let version := match dep.version with
    | some v => if v.isEmpty then "" else " ver=\"" ++ escapeXml v ++ "\""
    | none => ""
  "        <rpm:entry name=\"" ++ depName ++ "\"" ++ flags ++ version ++ "/>\n"

/-- The `<rpm:requires>` block: emitted only when the dependency list is
non-empty (`pkg.dependencies && pkg.dependencies.length > 0`). -/
def requiresSection (deps : List Dependency) : String :=
  if deps.length > 0 then
    "      <rpm:requires>\n"
    ++ deps.foldl (fun xml dep => xml ++ dependencyEntry dep) ""
    ++ "      </rpm:requires>\n"
  else ""

/-- The text appended for one package by the loop body of
`generatePrimaryXml`. -/
def primaryPackageEntry (timestamp : Int) (pkg : PackageMetadata) : String :=
  "  <package type=\"rpm\">\n"
  ++ "    <name>" ++ escapeXml pkg.name ++ "</name>\n"
  ++ "    <arch>" ++ escapeXml pkg.arch ++ "</arch>\n"
  ++ "    <version epoch=\"0\" ver=\"" ++ escapeXml pkg.version ++ "\" rel=\""
  ++ escapeXml pkg.release ++ "\"/>\n"
  ++ "    <checksum type=\"" ++ pkg.checksum.type ++ "\" pkgid=\"YES\">"
  ++ pkg.checksum.value ++ "</checksum>\n"
  ++ "    <summary>" ++ escapeXml pkg.summary ++ "</summary>\n"
  ++ "    <description>" ++ escapeXml pkg.description ++ "</description>\n"
  ++ "    <packager>" ++ escapeXml pkg.packager ++ "</packager>\n"
  ++ "    <url></url>\n"
  ++ "    <time file=\"" ++ toString timestamp ++ "\" build=\""
  ++ toString (epochSeconds pkg.buildTime) ++ "\"/>\n"
  ++ "    <size package=\"" ++ toString pkg.size.package ++ "\" installed=\""
  ++ toString pkg.size.installed ++ "\" archive=\"0\"/>\n"
  ++ "    <location href=\"" ++ escapeXml pkg.filename ++ "\"/>\n"
  ++ "    <format>\n"
  ++ "      <rpm:license>" ++ escapeXml pkg.license ++ "</rpm:license>\n"
  ++ "      <rpm:vendor>" ++ escapeXml pkg.vendor ++ "</rpm:vendor>\n"
  ++ "      <rpm:buildhost></rpm:buildhost>\n"
  ++ "      <rpm:header-range start=\"0\" end=\"0\"/>\n"
  ++ "      <rpm:provides>\n"
  ++ "        <rpm:entry name=\"" ++ escapeXml pkg.name
  ++ "\" flags=\"EQ\" epoch=\"0\" ver=\"" ++ escapeXml pkg.version
  ++ "\" rel=\"" ++ escapeXml pkg.release ++ "\"/>\n"
  ++ "        <rpm:entry name=\"" ++ escapeXml pkg.name ++ "(" ++ escapeXml pkg.arch
  ++ ")\" flags=\"EQ\" epoch=\"0\" ver=\"" ++ escapeXml pkg.version
  ++ "\" rel=\"" ++ escapeXml pkg.release ++ "\"/>\n"
  ++ "      </rpm:provides>\n"
  ++ requiresSection pkg.dependencies
  ++ "    </format>\n"
  ++ "  </package>\n"

/-- The `generatePrimaryXml` function: header, one entry per package appended
by the loop, closing tag. -/
def generatePrimaryXml (packages : List PackageMetadata) (timestamp : Int) : String :=
  (packages.foldl (fun xml pkg => xml ++ primaryPackageEntry timestamp pkg)
    ("<?xml version=\"1.0\" encoding=\"UTF-8\"?>\n"
     ++ "<metadata xmlns=\"http://linux.duke.edu/metadata/common\" xmlns:rpm=\"http://linux.duke.edu/metadata/rpm\" packages=\""
     ++ toString packages.length ++ "\">\n"))
  ++ "</metadata>\n"

/-- The text appended for one package by the loop body of
`generateFilelistsXml`. -/
def filelistsPackageEntry (pkg : PackageMetadata) : String :=
  "  <package pkgid=\"" ++ pkg.checksum.value ++ "\" name=\"" ++ escapeXml pkg.name
  ++ "\" arch=\"" ++ escapeXml pkg.arch ++ "\">\n"
  ++ "    <version epoch=\"0\" ver=\"" ++ escapeXml pkg.version ++ "\" rel=\""
  ++ escapeXml pkg.release ++ "\"/>\n"
  ++ "  </package>\n"

/-- The `generateFilelistsXml` function. -/
def generateFilelistsXml (packages : List PackageMetadata) : String :=
  (packages.foldl (fun xml pkg => xml ++ filelistsPackageEntry pkg)
    ("<?xml version=\"1.0\" encoding=\"UTF-8\"?>\n"
     ++ "<filelists xmlns=\"http://linux.duke.edu/metadata/filelists\" packages=\""
     ++ toString packages.length ++ "\">\n"))
  ++ "</filelists>\n"

/-- The text appended for one package by the loop body of
`generateOtherXml`. -/
def otherPackageEntry (pkg : PackageMetadata) : String :=
  "  <package pkgid=\"" ++ pkg.checksum.value ++ "\" name=\"" ++ escapeXml pkg.name
  ++ "\" arch=\"" ++ escapeXml pkg.arch ++ "\">\n"
  ++ "    <version epoch=\"0\" ver=\"" ++ escapeXml pkg.version ++ "\" rel=\""
  ++ escapeXml pkg.release ++ "\"/>\n"
  ++ "  </package>\n"

/-- The `generateOtherXml` function. -/
def generateOtherXml (packages : List PackageMetadata) : String :=
  (packages.foldl (fun xml pkg => xml ++ otherPackageEntry pkg)
    ("<?xml version=\"1.0\" encoding=\"UTF-8\"?>\n"
     ++ "<otherdata xmlns=\"http://linux.duke.edu/metadata/other\" packages=\""
     ++ toString packages.length ++ "\">\n"))
  ++ "</otherdata>\n"

/-- The `generateRepomdXml` function. -/
def generateRepomdXml (timestamp : Int) (primaryInfo filelistsInfo otherInfo : MetadataFileInfo) : String :=
  "<?xml version=\"1.0\" encoding=\"UTF-8\"?>\n"
  ++ "<repomd xmlns=\"http://linux.duke.edu/metadata/repo\" xmlns:rpm=\"http://linux.duke.edu/metadata/rpm\">\n"
  ++ "  <revision>" ++ toString timestamp ++ "</revision>\n"
  ++ "  <data type=\"primary\">\n"
  ++ "    <checksum type=\"sha256\">" ++ primaryInfo.checksumGz ++ "</checksum>\n"
  ++ "    <open-checksum type=\"sha256\">" ++ primaryInfo.checksum ++ "</open-checksum>\n"
  ++ "    <location href=\"repodata/primary.xml.gz\"/>\n"
  ++ "    <timestamp>" ++ toString timestamp ++ "</timestamp>\n"
  ++ "    <size>" ++ toString primaryInfo.sizeGz ++ "</size>\n"
  ++ "    <open-size>" ++ toString primaryInfo.size ++ "</open-size>\n"
  ++ "  </data>\n"
  ++ "  <data type=\"filelists\">\n"
  ++ "    <checksum type=\"sha256\">" ++ filelistsInfo.checksumGz ++ "</checksum>\n"
  ++ "    <open-checksum type=\"sha256\">" ++ filelistsInfo.checksum ++ "</open-checksum>\n"
  ++ "    <location href=\"repodata/filelists.xml.gz\"/>\n"
  ++ "    <timestamp>" ++ toString timestamp ++ "</timestamp>\n"
  ++ "    <size>" ++ toString filelistsInfo.sizeGz ++ "</size>\n"
  ++ "    <open-size>" ++ toString filelistsInfo.size ++ "</open-size>\n"
  ++ "  </data>\n"
  ++ "  <data type=\"other\">\n"
  ++ "    <checksum type=\"sha256\">" ++ otherInfo.checksumGz ++ "</checksum>\n"
  ++ "    <open-checksum type=\"sha256\">" ++ otherInfo.checksum ++ "</open-checksum>\n"
  ++ "    <location href=\"repodata/other.xml.gz\"/>\n"
  ++ "    <timestamp>" ++ toString timestamp ++ "</timestamp>\n"
  ++ "    <size>" ++ toString otherInfo.sizeGz ++ "</size>\n"
  ++ "    <open-size>" ++ toString otherInfo.size ++ "</open-size>\n"
  ++ "  </data>\n"
  ++ "</repomd>\n"

/-- The `generateRepoMetadata` function.  `gzip` is the byte-level
`CompressionStream` gzip primitive and `sha256hex` the hex-encoded SHA-256
digest primitive, both deterministic pure functions of their input bytes
supplied by the runtime.  `calculateSha256` and `gzipCompress` apply them to
the UTF-8 encoding of string input.  The parameter `wallClock` models the
ambient wall-clock reading (`Date.now()`) available to the code at call time;
the source never consults it, which the determinism theorem below makes
precise.  String `.length` is the UTF-16 code-unit count `jsLength`;
`Uint8Array.length` is the byte count `List.length`. -/
def generateRepoMetadata (gzip : List Nat → List Nat) (sha256hex : List Nat → String)
    (_wallClock : Int) (packages : List PackageMetadata) : RepoMetadata :=
  let timestamp : Int :=
    match packages with
    | pkg0 :: _ => epochSeconds pkg0.buildTime
    | [] => 0
  let primaryXml := generatePrimaryXml packages timestamp
  let filelistsXml := generateFilelistsXml packages
  let otherXml := generateOtherXml packages
  let primaryGz := gzip (utf8Encode primaryXml)
  let filelistsGz := gzip (utf8Encode filelistsXml)
  let otherGz := gzip (utf8Encode otherXml)
  let primaryChecksum := sha256hex (utf8Encode primaryXml)
  let primaryChecksumGz := sha256hex primaryGz
  let filelistsChecksum := sha256hex (utf8Encode filelistsXml)
  let filelistsChecksumGz := sha256hex filelistsGz
  let otherChecksum := sha256hex (utf8Encode otherXml)
  let otherChecksumGz := sha256hex otherGz
  let repomdXml := generateRepomdXml timestamp
    { checksum := primaryChecksum, checksumGz := primaryChecksumGz,
      size := jsLength primaryXml, sizeGz := primaryGz.length }
    { checksum := filelistsChecksum, checksumGz := filelistsChecksumGz,
      size := jsLength filelistsXml, sizeGz := filelistsGz.length }
    { checksum := otherChecksum, checksumGz := otherChecksumGz,
      size := jsLength otherXml, sizeGz := otherGz.length }
  { repomd := { xml := repomdXml }
    primary :=
      { xml := primaryXml, gz := primaryGz, checksum := primaryChecksumGz,
        openChecksum := primaryChecksum, size := primaryGz.length,
        openSize := jsLength primaryXml }
    filelists :=
      { xml := filelistsXml, gz := filelistsGz, checksum := filelistsChecksumGz,
        openChecksum := filelistsChecksum, size := filelistsGz.length,
        openSize := jsLength filelistsXml }
    other :=
      { xml := otherXml, gz := otherGz, checksum := otherChecksumGz,
        openChecksum := otherChecksum, size := otherGz.length,
        openSize := jsLength otherXml } }

/-! ## `version-discovery.ts`: the version ledger

The `VersionManager` stores a single JSON document under the key
`{provider}:version-index`.  The content of that one KV entry is modelled as
explicit state of type `Option VersionIndex` (absent or present), threaded
through the operations; `JSON.stringify` / parse round-tripping is the
identity on the structured value.  The two `new Date().toISOString()` calls of
`checkAndUpdate` are modelled by the explicit `now` argument, and the result
of `this.provider.fetchLatestVersion()` — which either yields a value or
throws — by an `Except` argument: a throw propagates out of `checkAndUpdate`
before any store access happens. -/

/-- The `VersionInfo` interface of `version-discovery.ts`. -/
structure VersionInfo where
  version : String
  release : String
  url : String
  filename : String
  added : String
deriving DecidableEq, Repr

/-- The `Omit<VersionInfo, 'added'>` result of `fetchLatestVersion`. -/
structure LatestVersion where
  version : String
  release : String
  url : String
  filename : String
deriving DecidableEq, Repr

/-- The `VersionIndex` interface: versions list and optional update stamp. -/
structure VersionIndex where
  versions : List VersionInfo
  updated : Option String
deriving DecidableEq, Repr

/-- The `{ versions: [], updated: null }` default of `getIndex`. -/
def emptyIndex : VersionIndex := { versions := [], updated := none }

/-- The `getIndex` method: stored value or the empty default. -/
def getIndex (store : Option VersionIndex) : VersionIndex :=
  store.getD emptyIndex

/-- The template literal `` `${version}-${release}` `` forming an identity key. -/
def versionKeyOf (version release : String) : String :=
  version ++ "-" ++ release

/-- The object spread `{ ...latest, added: now }` stamping a discovery time
onto a fetched descriptor. -/
def withAdded (latest : LatestVersion) (added : String) : VersionInfo :=
  { version := latest.version, release := latest.release,
    url := latest.url, filename := latest.filename, added := added }

/-- The `checkAndUpdate` method.  Returns the method result (or the propagated
provider failure) together with the resulting state of the index entry. -/
def checkAndUpdate (fetchResult : Except String LatestVersion) (now : String)
    (store : Option VersionIndex) : Except String Bool × Option VersionIndex :=
  match fetchResult with
  | Except.error e => (Except.error e, store)
  | Except.ok latest =>
    let index := getIndex store
    let versionKey := versionKeyOf latest.version latest.release
    if index.versions.any (fun v => versionKeyOf v.version v.release == versionKey) then
      (Except.ok false, store)
    else
      let newVersion : VersionInfo := withAdded latest now
      (Except.ok true,
       some { versions := newVersion :: index.versions, updated := some now })

/-- The `getLatest` method: `index.versions[0] || null`. -/
def getLatest (store : Option VersionIndex) : Option VersionInfo :=
  (getIndex store).versions.head?

/-- The `getAllVersions` method. -/
def getAllVersions (store : Option VersionIndex) : List VersionInfo :=
  (getIndex store).versions

/-! ## `metadata-manager.ts`: metadata store reads

The KV namespace is modelled as a function from keys to optionally present
stored records; the record type is a parameter because the source stores the
parsed JSON as `any`. -/

/-- One `{version, release}` query element of `getAllMetadata`. -/
structure VersionQuery where
  version : String
  release : String
deriving DecidableEq, Repr

/-- The `getMetadataKey` method: `` `${provider}:metadata:${version}-${release}` ``. -/
def getMetadataKey (providerName version release : String) : String :=
  providerName ++ ":metadata:" ++ version ++ "-" ++ release

/-- The `getMetadata` method: KV lookup under the metadata key, `null` when
absent. -/
def getMetadata {α : Type} (kv : String → Option α)
    (providerName version release : String) : Option α :=
  kv (getMetadataKey providerName version release)

/-- The `getAllMetadata` method: one lookup per query (the `Promise.all` of
the source resolves to the results in input order) followed by
`results.filter(metadata => metadata !== null)`, which keeps exactly the
present values. -/
def getAllMetadata {α : Type} (kv : String → Option α) (providerName : String)
    (versions : List VersionQuery) : List α :=
  let results := versions.map (fun v => getMetadata kv providerName v.version v.release)
  results.filterMap id

/-! ## Concrete fixtures used by counterexamples and witnesses -/

/-- Identity stand-in for the gzip primitive in concrete evaluations. -/
def gzipId : List Nat → List Nat := fun bytes => bytes

/-- Constant stand-in for the SHA-256 primitive in concrete evaluations. -/
def shaNull : List Nat → String := fun _ => "d"

/-- Package whose summary contains a non-ASCII character (U+00E9). -/
def nonAsciiPkg : PackageMetadata :=
  { name := "", version := "", release := "", arch := "", summary := "é",
    description := "", packager := "", buildTime := 0,
    size := { package := 0, installed := 0 },
    checksum := { type := "", value := "" },
    filename := "", license := "", vendor := "", dependencies := [] }

/-- Small all-ASCII package for witnesses. -/
def asciiPkg : PackageMetadata :=
  { name := "cursor", version := "1.7.28", release := "ab12", arch := "x86_64",
    summary := "editor", description := "an editor", packager := "p",
    buildTime := 1700000000000,
    size := { package := 10, installed := 20 },
    checksum := { type := "sha256", value := "cafe" },
    filename := "cursor-1.7.28-ab12.el8.x86_64.rpm", license := "Proprietary",
    vendor := "v", dependencies := [{ name := "glibc", version := some "2.28", flags := some "GE" }] }

/-- Ledger entry already present in the store for the C4 counterexample. -/
def storedV : VersionInfo :=
  { version := "1.0", release := "r", url := "u", filename := "f", added := "t0" }

/-- Store state already containing `storedV`. -/
def storeWithV : Option VersionIndex :=
  some { versions := [storedV], updated := some "t0" }

/-- Provider descriptor identical to `storedV`. -/
def latestV : LatestVersion :=
  { version := "1.0", release := "r", url := "u", filename := "f" }

/-- Unrelated pre-existing ledger entry for the C5 counterexample. -/
def oldC : VersionInfo :=
  { version := "0.9", release := "c", url := "u0", filename := "f0", added := "t0" }

/-- Release descriptor A for the C5 scenario. -/
def relA : LatestVersion := { version := "1.0", release := "a", url := "ua", filename := "fa" }

/-- Release descriptor B for the C5 scenario. -/
def relB : LatestVersion := { version := "2.0", release := "b", url := "ub", filename := "fb" }

/-! ## String and substring lemmas -/

/-- Appending strings concatenates their character data. -/
theorem data_append (a b : String) : (a ++ b).data = a.data ++ b.data := rfl

/-- The empty string is a left identity for append. -/
theorem str_empty_append (s : String) : "" ++ s = s := rfl

/-- A string decomposed as prefix, pattern, suffix contains the pattern. -/
theorem substr_intro (p pre post s : String) (h : s = pre ++ (p ++ post)) :
    Substr p s := by
  subst h
  exact ⟨pre.data, post.data, by simp [data_append]⟩

/-- Substring containment is preserved by extending on the left. -/
theorem substr_appendl (a : String) {p s : String} (h : Substr p s) :
    Substr p (a ++ s) := by
  obtain ⟨l, r, hr⟩ := h
  exact ⟨a.data ++ l, r, by rw [data_append, ← hr]; simp⟩

/-- Substring containment is preserved by extending on the right. -/
theorem substr_appendr (b : String) {p s : String} (h : Substr p s) :
    Substr p (s ++ b) := by
  obtain ⟨l, r, hr⟩ := h
  exact ⟨l, r ++ b.data, by rw [data_append, ← hr]; simp⟩

/-- A three-atom pattern sitting at the end of a left-nested chain. -/
theorem substr_end3 (pre a b c : String) :
    Substr (a ++ b ++ c) (pre ++ a ++ b ++ c) := by
  refine ⟨pre.data, [], ?_⟩
  simp [data_append]

/-- A five-atom pattern sitting at the end of a left-nested chain. -/
theorem substr_end5 (pre a b c d e : String) :
    Substr (a ++ b ++ c ++ d ++ e) (pre ++ a ++ b ++ c ++ d ++ e) := by
  refine ⟨pre.data, [], ?_⟩
  simp [data_append]

/-- A pattern contained in the accumulator survives an appending fold. -/
theorem substr_foldl_acc {α : Type} (f : α → String) (p : String) :
    ∀ (l : List α) (acc : String), Substr p acc →
      Substr p (l.foldl (fun xml x => xml ++ f x) acc)
  | [], _, h => h
  | x :: xs, acc, h =>
    substr_foldl_acc f p xs (acc ++ f x) (substr_appendr (f x) h)

/-- A pattern contained in the contribution of some list element appears in
the result of an appending fold over that list. -/
theorem substr_foldl_mem {α : Type} (f : α → String) (p : String) :
    ∀ (l : List α) (acc : String) (x : α), x ∈ l → Substr p (f x) →
      Substr p (l.foldl (fun xml y => xml ++ f y) acc)
  | [], _, _, hmem, _ => by cases hmem
  | y :: ys, acc, x, hmem, hx => by
    cases hmem with
    | head => exact substr_foldl_acc f p ys (acc ++ f y) (substr_appendl acc hx)
    | tail _ h2 => exact substr_foldl_mem f p ys (acc ++ f y) x h2 hx

/-- On ASCII-only data the UTF-16 code-unit count equals the UTF-8 byte
count: every character encodes to a single byte and a single code unit. -/
theorem jsLengthChars_eq_utf8_of_ascii :
    ∀ l : List Char, (∀ c ∈ l, c.toNat < 128) →
      jsLengthChars l = (utf8EncodeChars l).length
  | [], _ => rfl
  | c :: cs, h => by
    have hc : c.toNat < 128 := h c (List.mem_cons_self c cs)
    have hrest := jsLengthChars_eq_utf8_of_ascii cs
      (fun d hd => h d (List.mem_cons_of_mem c hd))
    have h16 : c.toNat < 0x10000 := by omega
    simp [jsLengthChars, utf8EncodeChars, jsCharWidth, utf8EncodeChar,
      if_pos hc, if_pos h16, hrest]
    omega

/-- On an ASCII-only string the JavaScript length equals the UTF-8 byte
length. -/
theorem jsLength_eq_utf8_of_ascii (s : String)
    (h : ∀ c ∈ s.data, c.toNat < 128) : jsLength s = (utf8Encode s).length :=
  jsLengthChars_eq_utf8_of_ascii s.data h

/-- The repomd document always carries its revision element with the given
timestamp value. -/
theorem substr_revision (t : Int) (i1 i2 i3 : MetadataFileInfo) :
    Substr ("  <revision>" ++ toString t ++ "</revision>\n")
      (generateRepomdXml t i1 i2 i3) := by
  unfold generateRepomdXml
  iterate 55 apply substr_appendr
  exact substr_end3 _ _ _ _

/-- Every primary-document package entry carries its time element with the
shared file timestamp and the package build time. -/
theorem substr_time_entry (ts : Int) (pkg : PackageMetadata) :
    Substr ("    <time file=\"" ++ toString ts ++ "\" build=\""
        ++ toString (epochSeconds pkg.buildTime) ++ "\"/>\n")
      (primaryPackageEntry ts pkg) := by
  unfold primaryPackageEntry
  iterate 38 apply substr_appendr
  exact substr_end5 _ _ _ _ _ _

/-! ## Dependency-mapping lemmas -/

/-- The flags of the mapped dependency records do not depend on the version
array: the flag branch of the loop body reads only the flag array. -/
theorem extractDependenciesAux_flags_indep :
    ∀ (names vs1 vs2 : List String) (fs : List Nat) (i : Nat),
      (extractDependenciesAux vs1 fs i names).map (fun d => d.flags) =
        (extractDependenciesAux vs2 fs i names).map (fun d => d.flags)
  | [], _, _, _, _ => rfl
  | n :: rest, vs1, vs2, fs, i => by
    simp only [extractDependenciesAux, List.map_cons, List.cons.injEq]
    exact ⟨rfl, extractDependenciesAux_flags_indep rest vs1 vs2 fs (i + 1)⟩

/-- Claim C1 (amended): in the dependency records produced by
`extractRpmMetadata`, the comparison flag of each dependency is determined
solely by its entry of the `RequireFlags` bitmask array (attached exactly when
the bitmask is non-zero and its low four bits are in the flag map), completely
independent of the paired version string — in particular a dependency whose
version string is empty can still carry a flags field. -/
theorem extractDependencies_flags_indep
    (requireNames requireVersions1 requireVersions2 : List String)
    (requireFlags : List Nat) :
    (extractDependencies requireNames requireVersions1 requireFlags).map (fun d => d.flags) =
      (extractDependencies requireNames requireVersions2 requireFlags).map (fun d => d.flags) :=
  extractDependenciesAux_flags_indep requireNames requireVersions1 requireVersions2 requireFlags 0

/-- Claim C1 counterexample: for the header arrays with name `x`, empty
version string and bitmask 8, the produced dependency carries the flag `EQ`
while having no version — refuting that a flag is attached only when the
paired version string is non-empty. -/
theorem extractDependencies_flag_without_version_cx :
    ¬ ∀ dep ∈ extractDependencies ["x"] [""] [8],
        dep.flags.isSome → dep.version.isSome := by
  decide

/-- Claim C7: dependency comparison flags are derived from the low 4 bits of
the bitmask through the fixed map 8 to EQ, 2 to LT, 4 to GT, 10 to LE, 12 to
GE, and a zero bitmask with empty version yields no flag. -/
theorem extractDependencies_flag_mapping (name v : String) (f : Nat)
    (hf : f ≠ 0) :
    (extractDependencies [name] [v] [f]).map (fun d => d.flags) = [flagMap (f &&& 0x0F)] ∧
    flagMap 8 = some "EQ" ∧ flagMap 10 = some "LE" ∧ flagMap 12 = some "GE" ∧
    flagMap 2 = some "LT" ∧ flagMap 4 = some "GT" ∧
    (extractDependencies [name] [""] [0]).map (fun d => (d.flags, d.version)) =
      [(none, none)] := by
  refine ⟨?_, rfl, rfl, rfl, rfl, rfl, ?_⟩
  · simp [extractDependencies, extractDependenciesAux, extractDependency, hf]
  · simp [extractDependencies, extractDependenciesAux, extractDependency]

/-- Witness for claim C7 at bitmask 12 and version `2.28`. -/
theorem extractDependencies_flag_mapping_witness :
    (extractDependencies ["glibc"] ["2.28"] [12]).map (fun d => d.flags) =
      [flagMap (12 &&& 0x0F)] ∧
    flagMap 8 = some "EQ" ∧ flagMap 10 = some "LE" ∧ flagMap 12 = some "GE" ∧
    flagMap 2 = some "LT" ∧ flagMap 4 = some "GT" ∧
    (extractDependencies ["glibc"] [""] [0]).map (fun d => (d.flags, d.version)) =
      [(none, none)] :=
  extractDependencies_flag_mapping "glibc" "2.28" 12 (by decide)

/-! ## Ledger and metadata-store claim theorems -/

/-- Claim C6: when the provider fetch fails, `checkAndUpdate` propagates the
failure unchanged and performs no store write — the ledger is exactly as it
was before the call. -/
theorem checkAndUpdate_provider_failure (e now : String)
    (store : Option VersionIndex) :
    checkAndUpdate (Except.error e) now store = (Except.error e, store) ∧
    getAllVersions (checkAndUpdate (Except.error e) now store).2 =
      getAllVersions store :=
  ⟨rfl, rfl⟩

/-- Claim C9: the bulk metadata read returns exactly the stored records of
the queried pairs that have one, in particular a record is returned exactly
when some queried pair has it stored; missing entries are dropped, never an
error (the operation is total). -/
theorem getAllMetadata_found_only {α : Type} (kv : String → Option α)
    (providerName : String) (versions : List VersionQuery) :
    getAllMetadata kv providerName versions =
      versions.filterMap (fun v => getMetadata kv providerName v.version v.release) ∧
    ∀ m : α, m ∈ getAllMetadata kv providerName versions ↔
      ∃ v ∈ versions, getMetadata kv providerName v.version v.release = some m := by
  have h1 : getAllMetadata kv providerName versions =
      versions.filterMap (fun v => getMetadata kv providerName v.version v.release) := by
    simp [getAllMetadata, List.filterMap_map]
  refine ⟨h1, fun m => ?_⟩
  rw [h1]
  exact List.mem_filterMap

/-- Claim C10: the bulk metadata read preserves input order — it distributes
over list concatenation, and its first result is the stored record of the
earliest queried pair that has one. -/
theorem getAllMetadata_order {α : Type} (kv : String → Option α)
    (providerName : String) (l1 l2 : List VersionQuery) :
    getAllMetadata kv providerName (l1 ++ l2) =
      getAllMetadata kv providerName l1 ++ getAllMetadata kv providerName l2 ∧
    ∀ versions : List VersionQuery,
      (getAllMetadata kv providerName versions).head? =
        (versions.find? (fun v =>
            (getMetadata kv providerName v.version v.release).isSome)).bind
          (fun v => getMetadata kv providerName v.version v.release) := by
  constructor
  · simp [getAllMetadata, List.filterMap_append]
  · intro versions
    induction versions with
    | nil => rfl
    | cons v vs ih =>
      cases hkv : getMetadata kv providerName v.version v.release with
      | some m =>
        simp [getAllMetadata, List.filterMap_cons, hkv, List.find?_cons_of_pos,
          Option.isSome]
      | none =>
        simpa [getAllMetadata, List.filterMap_cons, hkv, List.find?_cons_of_neg,
          Option.isSome] using ih


/-- Evaluation of `checkAndUpdate` when the descriptor key is not present:
the descriptor is prepended and the call reports `true`. -/
theorem checkAndUpdate_not_present (latest : LatestVersion) (now : String)
    (store : Option VersionIndex)
    (h : ((getIndex store).versions.any fun v =>
        versionKeyOf v.version v.release ==
          versionKeyOf latest.version latest.release) = false) :
    checkAndUpdate (Except.ok latest) now store =
      (Except.ok true,
       some { versions := withAdded latest now :: (getIndex store).versions,
              updated := some now }) := by
  simp only [checkAndUpdate, h]
  simp

/-- Evaluation of `checkAndUpdate` when the descriptor key is present: no
mutation and the call reports `false`. -/
theorem checkAndUpdate_present (latest : LatestVersion) (now : String)
    (store : Option VersionIndex)
    (h : ((getIndex store).versions.any fun v =>
        versionKeyOf v.version v.release ==
          versionKeyOf latest.version latest.release) = true) :
    checkAndUpdate (Except.ok latest) now store = (Except.ok false, store) := by
  simp only [checkAndUpdate, h]
  simp

/-- Claim C4 (amended): for every ledger state in which the reported
descriptor is not yet recorded, two successive check-and-record calls with
the identical descriptor return `true` then `false`; the second call leaves
the store untouched, and the ledger length grows by exactly one across the
pair. -/
theorem checkAndUpdate_twice (latest : LatestVersion) (now1 now2 : String)
    (store : Option VersionIndex)
    (h : ((getIndex store).versions.any fun v =>
        versionKeyOf v.version v.release ==
          versionKeyOf latest.version latest.release) = false) :
    (checkAndUpdate (Except.ok latest) now1 store).1 = Except.ok true ∧
    (checkAndUpdate (Except.ok latest) now2
        (checkAndUpdate (Except.ok latest) now1 store).2).1 = Except.ok false ∧
    (checkAndUpdate (Except.ok latest) now2
        (checkAndUpdate (Except.ok latest) now1 store).2).2 =
      (checkAndUpdate (Except.ok latest) now1 store).2 ∧
    (getAllVersions (checkAndUpdate (Except.ok latest) now1 store).2).length =
      (getAllVersions store).length + 1 ∧
    (getAllVersions (checkAndUpdate (Except.ok latest) now2
        (checkAndUpdate (Except.ok latest) now1 store).2).2).length =
      (getAllVersions store).length + 1 := by
  have h1 := checkAndUpdate_not_present latest now1 store h
  have hcond2 : ((getIndex (checkAndUpdate (Except.ok latest) now1 store).2).versions.any
      fun v => versionKeyOf v.version v.release ==
        versionKeyOf latest.version latest.release) = true := by
    rw [h1]
    simp [getIndex, withAdded]
  have h2 := checkAndUpdate_present latest now2 _ hcond2
  refine ⟨?_, ?_, ?_, ?_, ?_⟩
  · rw [h1]
  · rw [h2]
  · rw [h2]
  · rw [h1]; simp [getAllVersions, getIndex]
  · rw [h2, h1]; simp [getAllVersions, getIndex]

/-- Witness for claim C4 at descriptor `relA` on the empty store. -/
theorem checkAndUpdate_twice_witness :
    (checkAndUpdate (Except.ok relA) "t1" none).1 = Except.ok true ∧
    (checkAndUpdate (Except.ok relA) "t2"
        (checkAndUpdate (Except.ok relA) "t1" none).2).1 = Except.ok false ∧
    (checkAndUpdate (Except.ok relA) "t2"
        (checkAndUpdate (Except.ok relA) "t1" none).2).2 =
      (checkAndUpdate (Except.ok relA) "t1" none).2 ∧
    (getAllVersions (checkAndUpdate (Except.ok relA) "t1" none).2).length =
      (getAllVersions none).length + 1 ∧
    (getAllVersions (checkAndUpdate (Except.ok relA) "t2"
        (checkAndUpdate (Except.ok relA) "t1" none).2).2).length =
      (getAllVersions none).length + 1 :=
  checkAndUpdate_twice relA "t1" "t2" none (by decide)

/-- Claim C4 counterexample: on a ledger that already contains the reported
descriptor, the first of the two calls returns `false`, not `true`, and the
ledger length does not grow — refuting the claim for every ledger state. -/
theorem checkAndUpdate_twice_cx :
    (checkAndUpdate (Except.ok latestV) "t1" storeWithV).1 = Except.ok false ∧
    (checkAndUpdate (Except.ok latestV) "t1" storeWithV).2 = storeWithV ∧
    (getAllVersions (checkAndUpdate (Except.ok latestV) "t1" storeWithV).2).length =
      (getAllVersions storeWithV).length :=
  ⟨rfl, rfl, rfl⟩

/-- Claim C5 (amended): for every ledger state in which neither descriptor is
yet recorded, recording release A and then a distinct release B prepends,
never re-sorts: `all()` returns B, then A, then the previous entries exactly
in their prior order (so from an empty ledger exactly the sequence B, A), and
`latest()` returns B; `latest()` is absent exactly when the ledger is
empty. -/
theorem checkAndUpdate_ordering (A B : LatestVersion) (now1 now2 : String)
    (store : Option VersionIndex)
    (hA : ((getIndex store).versions.any fun v =>
        versionKeyOf v.version v.release == versionKeyOf A.version A.release) = false)
    (hB : ((getIndex store).versions.any fun v =>
        versionKeyOf v.version v.release == versionKeyOf B.version B.release) = false)
    (hAB : (versionKeyOf A.version A.release ==
        versionKeyOf B.version B.release) = false) :
    getAllVersions (checkAndUpdate (Except.ok B) now2
        (checkAndUpdate (Except.ok A) now1 store).2).2 =
      withAdded B now2 :: withAdded A now1 :: getAllVersions store ∧
    getLatest (checkAndUpdate (Except.ok B) now2
        (checkAndUpdate (Except.ok A) now1 store).2).2 =
      some (withAdded B now2) ∧
    ∀ st : Option VersionIndex, (getLatest st = none ↔ getAllVersions st = []) := by
  have h1 := checkAndUpdate_not_present A now1 store hA
  have hcond2 : ((getIndex (checkAndUpdate (Except.ok A) now1 store).2).versions.any
      fun v => versionKeyOf v.version v.release ==
        versionKeyOf B.version B.release) = false := by
    rw [h1]
    simp [getIndex, withAdded, List.any_cons, hAB]
    simpa using hB
  have h2 := checkAndUpdate_not_present B now2 _ hcond2
  refine ⟨?_, ?_, ?_⟩
  · rw [h2, h1]
    simp [getAllVersions, getIndex]
  · rw [h2]
    simp [getLatest, getIndex]
  · intro st
    simp [getLatest, getAllVersions, List.head?_eq_none_iff]

/-- Witness for claim C5 recording `relA` then `relB` on the empty store. -/
theorem checkAndUpdate_ordering_witness :
    getAllVersions (checkAndUpdate (Except.ok relB) "t2"
        (checkAndUpdate (Except.ok relA) "t1" none).2).2 =
      withAdded relB "t2" :: withAdded relA "t1" :: getAllVersions none ∧
    getLatest (checkAndUpdate (Except.ok relB) "t2"
        (checkAndUpdate (Except.ok relA) "t1" none).2).2 =
      some (withAdded relB "t2") ∧
    ∀ st : Option VersionIndex, (getLatest st = none ↔ getAllVersions st = []) :=
  checkAndUpdate_ordering relA relB "t1" "t2" none (by decide) (by decide) (by decide)

/-- Claim C5 counterexample: on a ledger that already holds an unrelated
entry, recording A then B yields `all()` equal to B, A followed by the old
entry — three elements, not the two-element sequence B, A the claim states
for every ledger. -/
theorem checkAndUpdate_ordering_cx :
    getAllVersions (checkAndUpdate (Except.ok relB) "t2"
        (checkAndUpdate (Except.ok relA) "t1"
          (some { versions := [oldC], updated := some "t0" })).2).2 =
      [withAdded relB "t2", withAdded relA "t1", oldC] ∧
    getAllVersions (checkAndUpdate (Except.ok relB) "t2"
        (checkAndUpdate (Except.ok relA) "t1"
          (some { versions := [oldC], updated := some "t0" })).2).2 ≠
      [withAdded relB "t2", withAdded relA "t1"] :=
  ⟨rfl, by decide⟩

/-! ## Repository index generator claim theorems -/

/-- Claim C2: `generateRepoMetadata` is deterministic — its output does not
depend on the wall clock, so two calls with the same metadata list produce
identical output for all four documents including the compressed bytes; the
revision element of the repomd document and the file timestamp of each
primary-document package entry carry the newest (first) package's recorded
build time in epoch seconds. -/
theorem generateRepoMetadata_deterministic
    (gzip : List Nat → List Nat) (sha256hex : List Nat → String)
    (clock1 clock2 : Int) (packages : List PackageMetadata)
    (pkg0 : PackageMetadata) (rest : List PackageMetadata)
    (hp : packages = pkg0 :: rest) :
    (∀ l : List PackageMetadata,
      generateRepoMetadata gzip sha256hex clock1 l =
        generateRepoMetadata gzip sha256hex clock2 l) ∧
    Substr ("  <revision>" ++ toString (epochSeconds pkg0.buildTime) ++ "</revision>\n")
      (generateRepoMetadata gzip sha256hex clock1 packages).repomd.xml ∧
    ∀ pkg ∈ packages,
      Substr ("    <time file=\"" ++ toString (epochSeconds pkg0.buildTime)
          ++ "\" build=\"" ++ toString (epochSeconds pkg.buildTime) ++ "\"/>\n")
        (generateRepoMetadata gzip sha256hex clock1 packages).primary.xml := by
  subst hp
  refine ⟨fun l => rfl, ?_, ?_⟩
  · exact substr_revision (epochSeconds pkg0.buildTime) _ _ _
  · intro pkg hmem
    show Substr _ (generatePrimaryXml (pkg0 :: rest) (epochSeconds pkg0.buildTime))
    unfold generatePrimaryXml
    apply substr_appendr
    exact substr_foldl_mem _ _ _ _ pkg hmem
      (substr_time_entry (epochSeconds pkg0.buildTime) pkg)

/-- Witness for claim C2 on the one-package list `[asciiPkg]` with two
different wall-clock readings. -/
theorem generateRepoMetadata_deterministic_witness :
    (∀ l : List PackageMetadata,
      generateRepoMetadata gzipId shaNull 0 l = generateRepoMetadata gzipId shaNull 1 l) ∧
    Substr ("  <revision>" ++ toString (epochSeconds asciiPkg.buildTime) ++ "</revision>\n")
      (generateRepoMetadata gzipId shaNull 0 [asciiPkg]).repomd.xml ∧
    ∀ pkg ∈ [asciiPkg],
      Substr ("    <time file=\"" ++ toString (epochSeconds asciiPkg.buildTime)
          ++ "\" build=\"" ++ toString (epochSeconds pkg.buildTime) ++ "\"/>\n")
        (generateRepoMetadata gzipId shaNull 0 [asciiPkg]).primary.xml :=
  generateRepoMetadata_deterministic gzipId shaNull 0 1 [asciiPkg] asciiPkg [] rfl

set_option maxRecDepth 8000 in
/-- Claim C8: on the empty metadata list the generator produces the three
package documents with a root element declaring `packages="0"` and no
package entry at all, and a repomd document whose revision value is 0. -/
theorem generateRepoMetadata_empty
    (gzip : List Nat → List Nat) (sha256hex : List Nat → String) (clock : Int) :
    (generateRepoMetadata gzip sha256hex clock []).primary.xml =
      "<?xml version=\"1.0\" encoding=\"UTF-8\"?>\n<metadata xmlns=\"http://linux.duke.edu/metadata/common\" xmlns:rpm=\"http://linux.duke.edu/metadata/rpm\" packages=\"0\">\n</metadata>\n" ∧
    (generateRepoMetadata gzip sha256hex clock []).filelists.xml =
      "<?xml version=\"1.0\" encoding=\"UTF-8\"?>\n<filelists xmlns=\"http://linux.duke.edu/metadata/filelists\" packages=\"0\">\n</filelists>\n" ∧
    (generateRepoMetadata gzip sha256hex clock []).other.xml =
      "<?xml version=\"1.0\" encoding=\"UTF-8\"?>\n<otherdata xmlns=\"http://linux.duke.edu/metadata/other\" packages=\"0\">\n</otherdata>\n" ∧
    Substr "  <revision>0</revision>\n"
      (generateRepoMetadata gzip sha256hex clock []).repomd.xml ∧
    ¬ Substr "<package " (generateRepoMetadata gzip sha256hex clock []).primary.xml ∧
    ¬ Substr "<package " (generateRepoMetadata gzip sha256hex clock []).filelists.xml ∧
    ¬ Substr "<package " (generateRepoMetadata gzip sha256hex clock []).other.xml := by
  have hP : (generateRepoMetadata gzip sha256hex clock []).primary.xml =
      "<?xml version=\"1.0\" encoding=\"UTF-8\"?>\n<metadata xmlns=\"http://linux.duke.edu/metadata/common\" xmlns:rpm=\"http://linux.duke.edu/metadata/rpm\" packages=\"0\">\n</metadata>\n" := rfl
  have hF : (generateRepoMetadata gzip sha256hex clock []).filelists.xml =
      "<?xml version=\"1.0\" encoding=\"UTF-8\"?>\n<filelists xmlns=\"http://linux.duke.edu/metadata/filelists\" packages=\"0\">\n</filelists>\n" := rfl
  have hO : (generateRepoMetadata gzip sha256hex clock []).other.xml =
      "<?xml version=\"1.0\" encoding=\"UTF-8\"?>\n<otherdata xmlns=\"http://linux.duke.edu/metadata/other\" packages=\"0\">\n</otherdata>\n" := rfl
  refine ⟨hP, hF, hO, ?_, ?_, ?_, ?_⟩
  · have hz : ("  <revision>0</revision>\n" : String) =
        "  <revision>" ++ toString (0 : Int) ++ "</revision>\n" := rfl
    rw [hz]
    exact substr_revision 0 _ _ _
  · rw [hP]; decide
  · rw [hF]; decide
  · rw [hO]; decide

/-- Claim C3 (amended): in every generated bundle each section declares a
size equal to the byte length of its gzip-compressed document and an
open-size equal to the UTF-16 code-unit count (the JavaScript string length)
of its uncompressed document, which coincides with the uncompressed byte
length whenever the document text is ASCII-only. -/
theorem generateRepoMetadata_sizes
    (gzip : List Nat → List Nat) (sha256hex : List Nat → String)
    (clock : Int) (packages : List PackageMetadata) :
    ((generateRepoMetadata gzip sha256hex clock packages).primary.size =
        (generateRepoMetadata gzip sha256hex clock packages).primary.gz.length ∧
      (generateRepoMetadata gzip sha256hex clock packages).primary.openSize =
        jsLength (generateRepoMetadata gzip sha256hex clock packages).primary.xml ∧
      ((∀ c ∈ (generateRepoMetadata gzip sha256hex clock packages).primary.xml.data,
          c.toNat < 128) →
        (generateRepoMetadata gzip sha256hex clock packages).primary.openSize =
          (utf8Encode (generateRepoMetadata gzip sha256hex clock packages).primary.xml).length)) ∧
    ((generateRepoMetadata gzip sha256hex clock packages).filelists.size =
        (generateRepoMetadata gzip sha256hex clock packages).filelists.gz.length ∧
      (generateRepoMetadata gzip sha256hex clock packages).filelists.openSize =
        jsLength (generateRepoMetadata gzip sha256hex clock packages).filelists.xml ∧
      ((∀ c ∈ (generateRepoMetadata gzip sha256hex clock packages).filelists.xml.data,
          c.toNat < 128) →
        (generateRepoMetadata gzip sha256hex clock packages).filelists.openSize =
          (utf8Encode (generateRepoMetadata gzip sha256hex clock packages).filelists.xml).length)) ∧
    ((generateRepoMetadata gzip sha256hex clock packages).other.size =
        (generateRepoMetadata gzip sha256hex clock packages).other.gz.length ∧
      (generateRepoMetadata gzip sha256hex clock packages).other.openSize =
        jsLength (generateRepoMetadata gzip sha256hex clock packages).other.xml ∧
      ((∀ c ∈ (generateRepoMetadata gzip sha256hex clock packages).other.xml.data,
          c.toNat < 128) →
        (generateRepoMetadata gzip sha256hex clock packages).other.openSize =
          (utf8Encode (generateRepoMetadata gzip sha256hex clock packages).other.xml).length)) :=
  ⟨⟨rfl, rfl, fun h => jsLength_eq_utf8_of_ascii _ h⟩,
   ⟨rfl, rfl, fun h => jsLength_eq_utf8_of_ascii _ h⟩,
   ⟨rfl, rfl, fun h => jsLength_eq_utf8_of_ascii _ h⟩⟩

set_option maxRecDepth 8000 in
/-- Witness for claim C3 on the empty metadata list, whose primary document
is ASCII-only. -/
theorem generateRepoMetadata_sizes_witness :
    (generateRepoMetadata gzipId shaNull 0 []).primary.openSize =
      (utf8Encode (generateRepoMetadata gzipId shaNull 0 []).primary.xml).length ∧
    (generateRepoMetadata gzipId shaNull 0 []).primary.size =
      (generateRepoMetadata gzipId shaNull 0 []).primary.gz.length :=
  ⟨(generateRepoMetadata_sizes gzipId shaNull 0 []).1.2.2 (by decide),
   (generateRepoMetadata_sizes gzipId shaNull 0 []).1.1⟩

set_option maxRecDepth 8000 in
/-- Claim C3 counterexample: for a package whose summary contains the
non-ASCII character U+00E9, the declared open-size of the primary entry (the
JavaScript string length) differs from the byte length of the uncompressed
primary document. -/
theorem generateRepoMetadata_openSize_cx :
    (generateRepoMetadata gzipId shaNull 0 [nonAsciiPkg]).primary.openSize ≠
      (utf8Encode (generateRepoMetadata gzipId shaNull 0 [nonAsciiPkg]).primary.xml).length := by
  decide
